import Mathlib

/-!
# SafeSight — live media ingestion and capture component, shallow embedding

This file embeds the core of the SafeSight dashboard (the WHEP/WebRTC
live-stream component, frame capture, recording pipeline and overlay
rendering) as executable Lean definitions, translated directly from the
TypeScript source:

* `App.tsx` (src/unnamed/part_000): `handleToggleRecording` with its
  `ondataavailable` / `onstop` recorder callbacks.
* `LiveStream` (src/unnamed/part_001, third file): `captureFrame`,
  `getStream`, the `startStream` negotiation effect, its cleanup, the
  `ontrack` handler, the error/retry UI and the detection-overlay boxes.
* `CameraFeed` (src/unnamed/part_001, fourth file): duplicate
  `captureFrame`.
* `MediaViewer` (src/unnamed/part_001, first file): detection-overlay
  boxes with the zoom transform.

Mutable refs become record fields, event handlers become functions applied
when the environment delivers the event, and async control flow is
linearised into the sequence of primitive actions the code performs.
-/

namespace SafeSight

/-! ## Data model (interfaces shared by App.tsx / LiveStream / MediaViewer) -/

/-- `RiskDetection` interface: a detection overlay with percentage
coordinates (`x`, `y`, `width`, `height` are percentages of the viewport)
and a confidence in 0–100. -/
structure RiskDetection where
  id : String
  rtype : String
  confidence : ℚ
  x : ℚ
  y : ℚ
  width : ℚ
  height : ℚ
deriving DecidableEq, Repr

/-! ## Frame Capturer (`LiveStream.captureFrame`, `CameraFeed.captureFrame`)

Source (identical in both components):

    captureFrame: () => {
      if (!videoRef.current || !videoRef.current.videoWidth) return null;
      if (!canvasRef.current) canvasRef.current = document.createElement('canvas');
      const video = videoRef.current;
      const canvas = canvasRef.current;
      canvas.width = video.videoWidth;
      canvas.height = video.videoHeight;
      const ctx = canvas.getContext('2d');
      if (!ctx) return null;
      ctx.drawImage(video, 0, 0, canvas.width, canvas.height);
      return canvas.toDataURL('image/jpeg', 0.95);
    }
-/

/-- The `<video>` element as `captureFrame` reads it: intrinsic pixel
dimensions plus the current decoded frame contents (abstract bytes).
`videoWidth = 0` is the browser's signal that no frame has decoded. -/
structure VideoElem where
  videoWidth : ℕ
  videoHeight : ℕ
  framePixels : List ℕ
deriving DecidableEq, Repr

/-- The component state read and written by `captureFrame`: `videoRef`
(`none` when the element is absent), the lazily created off-screen
`canvasRef`, whether `canvas.getContext('2d')` succeeds, and the
presentation-only `zoomLevel` state. -/
structure CaptureState where
  video : Option VideoElem
  canvas : Option Unit
  ctx2dAvailable : Bool
  zoomLevel : ℕ
deriving DecidableEq, Repr

/-- Result of `canvas.toDataURL(mime, quality)` before stringification:
the mime type, the quality argument as an integer percentage, the canvas
pixel dimensions and the drawn contents. -/
structure EncodedImage where
  mime : String
  qualityPct : ℕ
  width : ℕ
  height : ℕ
  pixels : List ℕ
deriving DecidableEq, Repr

/-- Rendering of `canvas.toDataURL`: a `data:` URL carrying the encoded
payload. The exact base64 payload is abstracted; the `data:<mime>;base64,`
prefix is what the browser guarantees. -/
def dataURL (img : EncodedImage) : String :=
  "data:" ++ img.mime ++ ";base64," ++ String.intercalate "." (img.pixels.map toString)

namespace LiveStream

/-- `captureFrame` of the `LiveStream` component, split at the
`toDataURL` call: returns the structured encoding (or `null`) together
with the updated state (the canvas is created lazily and reused). -/
def captureFrameImg (s : CaptureState) : Option EncodedImage × CaptureState :=
  match s.video with
  | none => (none, s)
  | some v =>
    if v.videoWidth = 0 then (none, s)
    else
      let s1 := match s.canvas with
        | none => { s with canvas := some () }
        | some _ => s
      if s1.ctx2dAvailable then
        (some { mime := "image/jpeg", qualityPct := 95,
                width := v.videoWidth, height := v.videoHeight,
                pixels := v.framePixels }, s1)
      else (none, s1)

/-- `captureFrame` as exposed through the imperative handle: the encoded
still image as a data-URL string, or `null`. -/
def captureFrame (s : CaptureState) : Option String × CaptureState :=
  ((captureFrameImg s).1.map dataURL, (captureFrameImg s).2)

end LiveStream

namespace CameraFeed

/-- `captureFrame` of the `CameraFeed` component — a line-for-line
duplicate of `LiveStream.captureFrame` in the source. -/
def captureFrameImg (s : CaptureState) : Option EncodedImage × CaptureState :=
  match s.video with
  | none => (none, s)
  | some v =>
    if v.videoWidth = 0 then (none, s)
    else
      let s1 := match s.canvas with
        | none => { s with canvas := some () }
        | some _ => s
      if s1.ctx2dAvailable then
        (some { mime := "image/jpeg", qualityPct := 95,
                width := v.videoWidth, height := v.videoHeight,
                pixels := v.framePixels }, s1)
      else (none, s1)

/-- String-level `captureFrame` of `CameraFeed`. -/
def captureFrame (s : CaptureState) : Option String × CaptureState :=
  ((captureFrameImg s).1.map dataURL, (captureFrameImg s).2)

end CameraFeed

/-! ## Overlay Renderer

Two render sites draw the supplied `RiskDetection` boxes over the media.

`LiveStream` (rendered only while `connectionStatus === 'connected'`):

    style={{ left: `${risk.x}%`, top: `${risk.y}%`,
             width: `${risk.width}%`, height: `${risk.height}%` }}
    animate={{ opacity: 1, scale: 1 }}

so the box is positioned and sized purely by percentages and its final
animation scale is 1 regardless of `zoomLevel` (only the video element
underneath is wrapped in a `scale: zoomLevel` container).

`MediaViewer`:

    style={{ left: `${risk.x}%`, top: `${risk.y}%`,
             width: `${risk.width}%`, height: `${risk.height}%`,
             transform: `scale(${zoom})`, transformOrigin: '0 0' }}
    animate={{ opacity: 1, scale: zoom }}

so the box keeps its top-left at `(x%, y%)` of the viewport and is scaled
by `zoom` about its own top-left corner (CSS `transform-origin: 0 0` is
the element's own origin), multiplying only its width and height.

Both label the box with

    {risk.type} ({Math.round(risk.confidence)}%)
-/

/-- Pixel-space rectangle (left, top, width, height) on a viewport. -/
structure Rect where
  left : ℚ
  top : ℚ
  width : ℚ
  height : ℚ
deriving DecidableEq, Repr

/-- JavaScript `Math.round`: round half toward positive infinity. -/
def jsRound (q : ℚ) : ℤ :=
  Rat.floor (q + 1/2)

/-- The overlay label rendered at both sites:
`{risk.type} ({Math.round(risk.confidence)}%)`. -/
def overlayLabel (r : RiskDetection) : String :=
  r.rtype ++ " (" ++ toString (jsRound r.confidence) ++ "%)"

/-- Pixel bounds of a `LiveStream` overlay box on a `vw × vh` viewport:
CSS percentage offsets/sizes resolve against the container, and no zoom
transform is applied to the box (its animation scale is the constant 1).
The `zoom` argument is the component's `zoomLevel`, which the box style
does not read. -/
def liveOverlayRect (vw vh : ℚ) (_zoom : ℚ) (r : RiskDetection) : Rect :=
  { left := r.x / 100 * vw
    top := r.y / 100 * vh
    width := r.width / 100 * vw
    height := r.height / 100 * vh }

/-- Pixel bounds of a `MediaViewer` overlay box on a `vw × vh` viewport:
percentage position and size, then `scale(zoom)` about the element's own
top-left corner (`transformOrigin: '0 0'`), which leaves the top-left
fixed and multiplies the extent. -/
def viewerOverlayRect (vw vh : ℚ) (zoom : ℚ) (r : RiskDetection) : Rect :=
  { left := r.x / 100 * vw
    top := r.y / 100 * vh
    width := r.width / 100 * vw * zoom
    height := r.height / 100 * vh * zoom }

/-- Modelled from the spec's words, for comparison with the two source
renderers: a rectangle at viewport position `(x%, y%)` with size
`(width%, height%)`, scaled about the viewport's origin by the zoom
factor — i.e. every coordinate multiplied by `zoom`. -/
def specOverlayRect (vw vh : ℚ) (zoom : ℚ) (r : RiskDetection) : Rect :=
  { left := r.x / 100 * vw * zoom
    top := r.y / 100 * vh * zoom
    width := r.width / 100 * vw * zoom
    height := r.height / 100 * vh * zoom }

/-! ## Session Negotiator (`LiveStream` WHEP effect)

Source of the effect body (`startStream`), its cleanup, and the `ontrack`
handler:

    const startStream = async () => {
      if (!streamUrl) return;
      setConnectionStatus('connecting');
      setErrorMessage(null);
      if (pcRef.current) { pcRef.current.close(); }
      try {
        const pc = new RTCPeerConnection({ iceServers: [{ urls: 'stun:stun.l.google.com:19302' }] });
        pcRef.current = pc;
        pc.ontrack = (event) => {
          if (videoRef.current && event.streams[0]) {
            videoRef.current.srcObject = event.streams[0];
            streamRef.current = event.streams[0];
            if (isMounted) setConnectionStatus('connected');
          }
        };
        pc.addTransceiver('video', { direction: 'recvonly' });
        const offer = await pc.createOffer();
        await pc.setLocalDescription(offer);
        const response = await fetch(streamUrl, {
          method: 'POST', body: offer.sdp,
          headers: { 'Content-Type': 'application/sdp' } });
        if (!response.ok) throw new Error(`Connection failed: ${response.statusText}`);
        const answerSdp = await response.text();
        await pc.setRemoteDescription(
          new RTCPeerConnection().createSessionDescription({ type: 'answer', sdp: answerSdp }));
      } catch (err) {
        if (isMounted) { setConnectionStatus('error');
                         setErrorMessage("Cannot connect to Camera. Check Raspberry Pi."); }
      }
    };
    startStream();
    return () => {
      isMounted = false;
      if (pcRef.current) { pcRef.current.close(); }
      if (videoRef.current) { videoRef.current.srcObject = null; }
    };

Note `RTCPeerConnection` has no method `createSessionDescription` (the
DOM API offers `RTCSessionDescription`); the penultimate `await` first
constructs a fresh peer connection, then fails the method lookup and
throws a TypeError, landing in the catch. The fresh connection is never
closed, and `pc.setRemoteDescription` is never reached.

The negotiation is linearised as a list of primitive actions (`Prim`),
one per observable instant; peer connections are numbered, and the set of
constructed-but-not-closed ones is tracked to state the
one-open-connection invariant. -/

/-- A session description: its `type` field and SDP text. -/
structure SD where
  ty : String
  sdp : String
deriving DecidableEq, Repr

/-- Outcome of the `fetch` POST, as the code inspects it: `response.ok`
with the body text, or not-ok with the status text. -/
inductive HttpResp where
  | ok (body : String)
  | notOk (statusText : String)
deriving DecidableEq, Repr

/-- The `connectionStatus` state of `LiveStream`. -/
inductive ConnStatus where
  | connecting
  | connected
  | error
deriving DecidableEq, Repr

/-- Primitive actions performed by the negotiation effect and its
cleanup, in program order. -/
inductive Prim where
  | setStatus (s : ConnStatus)
  | setErrorMsg (m : Option String)
  | closePC (id : ℕ)
  | newPC (id : ℕ) (iceServers : List String)
  | assignPcRef (id : ℕ)
  | addTransceiverRecvOnly (id : ℕ)
  | setLocalDesc (id : ℕ) (offer : SD)
  | httpPost (url : String) (contentType : String) (body : String)
  | setRemoteDesc (id : ℕ) (answer : SD)
  | throwTypeError (msg : String)
  | throwHttpError (msg : String)
  | clearVideoSrc
deriving DecidableEq, Repr

/-- The catch handler of `startStream`. -/
def catchPrims (isMounted : Bool) : List Prim :=
  if isMounted then
    [.setStatus .error,
     .setErrorMsg (some "Cannot connect to Camera. Check Raspberry Pi.")]
  else []

/-- The `startStream` effect body as its sequence of primitive actions.
`prior` is `pcRef.current` on entry, `pcId` numbers the connection built
by `new RTCPeerConnection({iceServers: ...})`, `tmpId` the one built
inline in the `setRemoteDescription` argument, `offer` the description
`createOffer` produced, and `resp` the `fetch` outcome. -/
def startStream (prior : Option ℕ) (pcId tmpId : ℕ) (url : String) (offer : SD)
    (resp : HttpResp) (isMounted : Bool) : List Prim :=
  if url = "" then []
  else
    [.setStatus .connecting, .setErrorMsg none]
    ++ (match prior with
        | some p => [.closePC p]
        | none => [])
    ++ [.newPC pcId ["stun:stun.l.google.com:19302"],
        .assignPcRef pcId,
        .addTransceiverRecvOnly pcId,
        .setLocalDesc pcId offer,
        .httpPost url "application/sdp" offer.sdp]
    ++ (match resp with
        | .ok _body =>
          -- `pc.setRemoteDescription(new RTCPeerConnection().createSessionDescription(...))`:
          -- the argument is evaluated first, so a fresh peer connection is
          -- constructed, then the lookup of the nonexistent method
          -- `createSessionDescription` throws, and `.setRemoteDesc` is never
          -- reached; control lands in the catch block.
          [.newPC tmpId [],
           .throwTypeError "createSessionDescription is not a function"]
          ++ catchPrims isMounted
        | .notOk statusText =>
          [.throwHttpError ("Connection failed: " ++ statusText)]
          ++ catchPrims isMounted)

/-- The effect cleanup (run on unmount and before re-running the effect
on a `streamUrl` change): close `pcRef.current` if present and detach the
video element's source. `streamRef` is not touched. -/
def cleanup (prior : Option ℕ) : List Prim :=
  (match prior with
   | some p => [.closePC p]
   | none => []) ++ [.clearVideoSrc]

/-- The mutable state of one `LiveStream` instance: the refs, the two
`useState` cells, and the set of peer connections constructed but not yet
closed (for the invariant; a connection stays open until `close()`). -/
structure LS where
  pcRef : Option ℕ
  streamRef : Option ℕ
  videoSrc : Option ℕ
  status : ConnStatus
  errorMessage : Option String
  openPCs : List ℕ
deriving DecidableEq, Repr

/-- Initial state on mount: `useState('connecting')`, empty refs. -/
def initLS : LS :=
  { pcRef := none, streamRef := none, videoSrc := none,
    status := .connecting, errorMessage := none, openPCs := [] }

/-- Effect of one primitive action on the component state. -/
def applyPrim (st : LS) : Prim → LS
  | .setStatus s => { st with status := s }
  | .setErrorMsg m => { st with errorMessage := m }
  | .closePC i => { st with openPCs := st.openPCs.erase i }
  | .newPC i _ => { st with openPCs := i :: st.openPCs }
  | .assignPcRef i => { st with pcRef := some i }
  | .addTransceiverRecvOnly _ => st
  | .setLocalDesc _ _ => st
  | .httpPost _ _ _ => st
  | .setRemoteDesc _ _ => st
  | .throwTypeError _ => st
  | .throwHttpError _ => st
  | .clearVideoSrc => { st with videoSrc := none }

/-- Run a sequence of primitive actions. -/
def runPrims (st : LS) (ps : List Prim) : LS :=
  ps.foldl applyPrim st

/-- The `pc.ontrack` handler, applied when the browser delivers a track
event carrying stream `sid`. It can only fire from a connection that has
not been closed; the handler stores the stream on the video element and
in `streamRef` and reports `connected`. -/
def onTrack (st : LS) (sid : ℕ) : LS :=
  match st.pcRef with
  | some i =>
    if i ∈ st.openPCs then
      { st with videoSrc := some sid, streamRef := some sid, status := .connected }
    else st
  | none => st

/-- `getStream()` as exposed through the imperative handle:
`() => streamRef.current`. -/
def getStream (st : LS) : Option ℕ :=
  st.streamRef

/-- Number of retry affordances in the rendered UI: the error overlay is
shown iff the status is not `connected`; while `connecting` it holds only
a spinner, in the `error` state it holds exactly one
"Retry Connection" button. -/
def retryButtonCount (st : LS) : ℕ :=
  match st.status with
  | .connecting => 0
  | .connected => 0
  | .error => 1

/-- Environment-driven events in the life of one component instance:
the effect running (on mount or after a URL change), a track arriving,
and the effect cleanup (URL change or unmount). -/
inductive Ev where
  | negotiate (pcId tmpId : ℕ) (url : String) (offer : SD) (resp : HttpResp)
  | trackArrived (sid : ℕ)
  | teardown
deriving DecidableEq, Repr

/-- One event step. -/
def stepEv (st : LS) : Ev → LS
  | .negotiate pcId tmpId url offer resp =>
    runPrims st (startStream st.pcRef pcId tmpId url offer resp true)
  | .trackArrived sid => onTrack st sid
  | .teardown => runPrims st (cleanup st.pcRef)

/-- Run a sequence of events from a state. -/
def runEvents (st : LS) (es : List Ev) : LS :=
  es.foldl stepEv st

/-- Auxiliary fold for `maxOpen`: track the open-connection list and the
maximum count seen after any instant. -/
def maxOpenAux : List ℕ → ℕ → List Prim → ℕ
  | _, m, [] => m
  | s, m, p :: ps =>
    let s1 := (applyPrim { initLS with openPCs := s } p).openPCs
    maxOpenAux s1 (max m s1.length) ps

/-- Largest number of simultaneously open peer connections at any instant
while running a primitive sequence from no open connections. -/
def maxOpen (ps : List Prim) : ℕ :=
  maxOpenAux [] 0 ps

/-- Whether a primitive is a `setRemoteDescription` application. -/
def isSetRemotePrim : Prim → Bool
  | .setRemoteDesc _ _ => true
  | _ => false

/-- Whether a primitive is an HTTP POST. -/
def isPostPrim : Prim → Bool
  | .httpPost _ _ _ => true
  | _ => false

/-- Whether an event is a track arrival. -/
def isTrackEv : Ev → Bool
  | .trackArrived _ => true
  | _ => false

/-- The WHEP endpoint configured in `App.tsx`. -/
def whepUrl : String :=
  "http://192.168.1.92:8889/pi-cam-hires/whep"

/-- A concrete local offer produced by `createOffer`. -/
def offerSD : SD :=
  { ty := "offer", sdp := "v=0 offer" }

/-- The primitive actions of one fresh-mount negotiation whose POST gets
a 2xx answer. -/
def okNegotiation : List Prim :=
  startStream none 0 1 whepUrl offerSD (.ok "v=0 answer") true

/-! ## Recording Pipeline (`App.handleToggleRecording`)

Source:

    const handleToggleRecording = async () => {
      const wasRecording = isRecording;
      setIsRecording(!isRecording);
      if (wasRecording) {
        if (mediaRecorderRef.current && mediaRecorderRef.current.state !== 'inactive') {
          mediaRecorderRef.current.stop();
        }
      } else {
        const stream = liveStreamRef.current?.getStream();
        if (!stream) { toast.error(...); setIsRecording(false); return; }
        try {
          recordedChunksRef.current = [];
          recordingStartTimeRef.current = Date.now();
          const mediaRecorder = new MediaRecorder(stream, { mimeType: 'video/webm;codecs=vp9' });
          mediaRecorder.ondataavailable = (event) => {
            if (event.data.size > 0) { recordedChunksRef.current.push(event.data); }
          };
          mediaRecorder.onstop = async () => {
            const blob = new Blob(recordedChunksRef.current, { type: 'video/webm' });
            const duration = Math.floor((Date.now() - recordingStartTimeRef.current) / 1000);
            const thumbnailUrl = liveStreamRef.current?.captureFrame() || '';
            const newVideo = { ..., duration, risks: detectedRisks, ... };
            setRecordedVideos((prev) => [newVideo, ...prev.slice(0, 4)]);
          };
          mediaRecorderRef.current = mediaRecorder;
          mediaRecorder.start(1000);
        } catch (error) { ...; setIsRecording(false); }
      }
    };

The `onstop` closure reads `recordedChunksRef` / `recordingStartTimeRef`
through refs (always-current), but `detectedRisks` is the `useState`
value captured by the closure when the recorder was constructed, i.e. the
detection set of the render in which recording STARTED. The model makes
this explicit: the recorder object stores `capturedRisks` at start, and
`onstop` reads it, while the refs are read from the state at stop time.
`mediaRecorder.start(1000)` requests a chunk every 1000 ms; chunk
deliveries are environment events handled by `ondataavailable`. -/

/-- One encoded media chunk delivered by the recorder (`event.data`):
its `size` and its bytes. -/
structure Chunk where
  size : ℕ
  data : List ℕ
deriving DecidableEq, Repr

/-- The `MediaRecorder` as `handleToggleRecording` configures it: the
requested mime type, the `start` timeslice, and the `detectedRisks` value
captured by the `onstop` closure at construction time. -/
structure Recorder where
  mimeType : String
  timesliceMs : ℕ
  capturedRisks : List RiskDetection
deriving DecidableEq, Repr

/-- A finalized `RecordedVideo` artifact (the fields the recording
pipeline computes; `id`/`timestamp`/`filename` are date formatting). -/
structure RecordedVideoArtifact where
  duration : ℕ
  blobData : List ℕ
  blobType : String
  risks : List RiskDetection
  thumbnailUrl : String
deriving DecidableEq, Repr

/-- The `App` state touched by the recording pipeline: the
`isRecording` flag, the three refs, the recorder (with whether its state
is not yet `'inactive'`), the retained artifacts and the live
`detectedRisks` state. -/
structure AppState where
  isRecording : Bool
  recordedChunks : List Chunk
  recordingStartTime : ℕ
  recorder : Option Recorder
  recorderActive : Bool
  recordedVideos : List RecordedVideoArtifact
  detectedRisks : List RiskDetection
deriving DecidableEq, Repr

/-- `handleToggleRecording`, with the environment supplied as arguments:
`now` is `Date.now()` (at start: the start stamp; at stop: the clock the
`onstop` callback reads), `stream` is `liveStreamRef.current?.getStream()`,
`ctorOk` is whether the `MediaRecorder` constructor succeeds, and `thumb`
is `liveStreamRef.current?.captureFrame()` at stop time. The async
`onstop` callback is folded into the stop branch. -/
def handleToggleRecording (st : AppState) (now : ℕ) (stream : Option ℕ)
    (ctorOk : Bool) (thumb : Option String) : AppState :=
  if st.isRecording then
    match st.recorder, st.recorderActive with
    | some r, true =>
      let blobData := (st.recordedChunks.map Chunk.data).flatten
      let dur := (now - st.recordingStartTime) / 1000
      let art : RecordedVideoArtifact :=
        { duration := dur, blobData := blobData, blobType := "video/webm",
          risks := r.capturedRisks, thumbnailUrl := thumb.getD "" }
      { st with isRecording := false, recorderActive := false,
                recordedVideos := art :: st.recordedVideos.take 4 }
    | _, _ => { st with isRecording := false }
  else
    match stream with
    | none => { st with isRecording := false }
    | some _ =>
      if ctorOk then
        { st with isRecording := true,
                  recordedChunks := [],
                  recordingStartTime := now,
                  recorder := some { mimeType := "video/webm;codecs=vp9",
                                     timesliceMs := 1000,
                                     capturedRisks := st.detectedRisks },
                  recorderActive := true }
      else
        { st with isRecording := false,
                  recordedChunks := [],
                  recordingStartTime := now }

/-- The recorder's `ondataavailable` handler: append the chunk iff it is
non-empty. It can only fire while a recorder is active. -/
def ondataavailable (st : AppState) (c : Chunk) : AppState :=
  if st.recorderActive then
    if c.size > 0 then { st with recordedChunks := st.recordedChunks ++ [c] }
    else st
  else st

/-- Environment events for the recording pipeline: a toggle click (with
the clock, the stream lookup, constructor outcome and stop-time
thumbnail), a recorder chunk delivery, and a detection-state update from
the mock generator. -/
inductive AppEv where
  | toggle (now : ℕ) (stream : Option ℕ) (ctorOk : Bool) (thumb : Option String)
  | dataAvail (c : Chunk)
  | risksUpdate (rs : List RiskDetection)
deriving DecidableEq, Repr

/-- One recording-pipeline event step. -/
def stepApp (st : AppState) : AppEv → AppState
  | .toggle now stream ctorOk thumb => handleToggleRecording st now stream ctorOk thumb
  | .dataAvail c => ondataavailable st c
  | .risksUpdate rs => { st with detectedRisks := rs }

/-- Run a sequence of recording-pipeline events. -/
def runApp (st : AppState) (es : List AppEv) : AppState :=
  es.foldl stepApp st

/-- An `App` state with no recording in progress and no artifacts. -/
def appIdle (risks : List RiskDetection) : AppState :=
  { isRecording := false, recordedChunks := [], recordingStartTime := 0,
    recorder := none, recorderActive := false, recordedVideos := [],
    detectedRisks := risks }

/-- Whether a recording-pipeline event is a mid-recording environment
event (a chunk delivery or a detection-state update), as opposed to a
toggle click. -/
def isMidEv : AppEv → Bool
  | .dataAvail _ => true
  | .risksUpdate _ => true
  | .toggle _ _ _ _ => false

/-- A sample detection overlay active when recording starts. -/
def riskA : RiskDetection :=
  { id := "risk-0", rtype := "Fire Hazard", confidence := 90,
    x := 10, y := 10, width := 20, height := 20 }

/-- A second detection overlay, appearing only after recording started. -/
def riskB : RiskDetection :=
  { id := "risk-1", rtype := "Slippery Floor", confidence := 75,
    x := 40, y := 40, width := 15, height := 15 }

/-! ## Claims -/

/-- C4 counterexample: a state whose video has a decoded frame
(`videoWidth = 640 ≠ 0`) but whose raster surface cannot supply a 2D
drawing context; the claim says `captureFrame` returns a non-empty
encoded JPEG here, yet both components return `null`. -/
theorem captureFrame_not_image_when_ctx_missing :
    (LiveStream.captureFrame
      { video := some { videoWidth := 640, videoHeight := 480, framePixels := [7, 7] },
        canvas := none, ctx2dAvailable := false, zoomLevel := 1 }).1 = none
    ∧ (CameraFeed.captureFrame
      { video := some { videoWidth := 640, videoHeight := 480, framePixels := [7, 7] },
        canvas := none, ctx2dAvailable := false, zoomLevel := 1 }).1 = none
    ∧ (640 : ℕ) ≠ 0 := by
  refine ⟨rfl, rfl, by decide⟩

/-- C4 (amended): `captureFrame()` returns null whenever the video
element is absent or has no decoded frame (zero intrinsic width); when a
frame is available AND the off-screen surface's 2D context can be
obtained, it returns a non-empty JPEG data URL whose pixel dimensions
equal the video's intrinsic `videoWidth × videoHeight`, encoded at fixed
95% quality; the result never depends on the zoom level; and the
`CameraFeed` variant computes exactly the same function. -/
theorem captureFrame_contract (s : CaptureState) :
    (s.video = none → (LiveStream.captureFrame s).1 = none)
    ∧ (∀ v, s.video = some v → v.videoWidth = 0 → (LiveStream.captureFrame s).1 = none)
    ∧ (∀ v, s.video = some v → v.videoWidth ≠ 0 → s.ctx2dAvailable = true →
        (LiveStream.captureFrameImg s).1 =
          some { mime := "image/jpeg", qualityPct := 95,
                 width := v.videoWidth, height := v.videoHeight,
                 pixels := v.framePixels }
        ∧ ∃ rest, (LiveStream.captureFrame s).1 = some ("data:image/jpeg;base64," ++ rest))
    ∧ (∀ z, (LiveStream.captureFrame { s with zoomLevel := z }).1 =
        (LiveStream.captureFrame s).1)
    ∧ CameraFeed.captureFrame s = LiveStream.captureFrame s := by
  obtain ⟨vid, canv, ctx, zoom⟩ := s
  refine ⟨?_, ?_, ?_, ?_, rfl⟩
  · rintro rfl; rfl
  · rintro v rfl hw
    simp [LiveStream.captureFrame, LiveStream.captureFrameImg, hw]
  · rintro v hv hw rfl
    cases hv
    cases canv <;>
      simp [LiveStream.captureFrame, LiveStream.captureFrameImg, hw, dataURL]
  · intro z
    cases vid with
    | none => rfl
    | some v =>
      cases canv <;> cases ctx <;>
        by_cases hw : v.videoWidth = 0 <;>
        simp [LiveStream.captureFrame, LiveStream.captureFrameImg, hw]

/-- C4 witness: the amended contract applied at a concrete ready state
(1920×1080 frame, context available). -/
theorem captureFrame_contract_witness :
    (LiveStream.captureFrameImg
      { video := some { videoWidth := 1920, videoHeight := 1080, framePixels := [1, 2] },
        canvas := none, ctx2dAvailable := true, zoomLevel := 2 }).1 =
      some { mime := "image/jpeg", qualityPct := 95, width := 1920, height := 1080,
             pixels := [1, 2] } :=
  ((captureFrame_contract
      { video := some { videoWidth := 1920, videoHeight := 1080, framePixels := [1, 2] },
        canvas := none, ctx2dAvailable := true, zoomLevel := 2 }).2.2.1
    { videoWidth := 1920, videoHeight := 1080, framePixels := [1, 2] }
    rfl (by decide) rfl).1

/-- C10: `captureFrame()` is total at the public interface — in every
state it returns either an encoded-image string or null (the embedding
returns an `Option`, covering every control path of the source), and in
particular, when a frame is decoded but the off-screen surface's 2D
context cannot be obtained, both components return null. -/
theorem captureFrame_total (s : CaptureState) :
    ((LiveStream.captureFrame s).1 = none ∨
      ∃ str, (LiveStream.captureFrame s).1 = some str)
    ∧ (∀ v, s.video = some v → v.videoWidth ≠ 0 → s.ctx2dAvailable = false →
        (LiveStream.captureFrame s).1 = none ∧ (CameraFeed.captureFrame s).1 = none) := by
  obtain ⟨vid, canv, ctx, zoom⟩ := s
  constructor
  · cases hres : (LiveStream.captureFrame ⟨vid, canv, ctx, zoom⟩).1 with
    | none => exact Or.inl rfl
    | some str => exact Or.inr ⟨str, rfl⟩
  · rintro v rfl hw rfl
    cases canv <;>
      simp [LiveStream.captureFrame, LiveStream.captureFrameImg,
        CameraFeed.captureFrame, CameraFeed.captureFrameImg, hw]

/-- Int floor on rationals coincides with the executable `Rat.floor`
(the `FloorRing ℚ` instance is built from it). -/
lemma ratFloor_eq_intFloor (q : ℚ) : Rat.floor q = ⌊q⌋ :=
  rfl

/-- `jsRound` is a correct round-to-nearest: it is within one half of its
argument. -/
lemma jsRound_dist (q : ℚ) : |q - (jsRound q : ℚ)| ≤ 1 / 2 := by
  rw [abs_le]
  have h1 : (⌊q + 1 / 2⌋ : ℚ) ≤ q + 1 / 2 := Int.floor_le _
  have h2 : q + 1 / 2 - 1 < (⌊q + 1 / 2⌋ : ℚ) := Int.sub_one_lt_floor _
  unfold jsRound
  rw [ratFloor_eq_intFloor]
  constructor <;> linarith

/-- C8 counterexample: a concrete overlay (`x=10, y=20, width=30,
height=15` percent, confidence 87) on a 100×100 viewport at zoom factor
2. The claim's projection (all coordinates scaled about the viewport's
origin) puts the box at (20, 40) with size 60×30, but the live view
renders it at (10, 20) with size 30×15 (no zoom scaling at all), and the
media viewer at (10, 20) with size 60×30 (scaled about the box's own
origin), so neither renderer matches the claim. -/
theorem overlay_zoom_mismatch :
    liveOverlayRect 100 100 2
        { id := "risk-1", rtype := "Fire Hazard", confidence := 87,
          x := 10, y := 20, width := 30, height := 15 } ≠
      specOverlayRect 100 100 2
        { id := "risk-1", rtype := "Fire Hazard", confidence := 87,
          x := 10, y := 20, width := 30, height := 15 }
    ∧ viewerOverlayRect 100 100 2
        { id := "risk-1", rtype := "Fire Hazard", confidence := 87,
          x := 10, y := 20, width := 30, height := 15 } ≠
      specOverlayRect 100 100 2
        { id := "risk-1", rtype := "Fire Hazard", confidence := 87,
          x := 10, y := 20, width := 30, height := 15 } := by
  constructor <;>
    norm_num [liveOverlayRect, viewerOverlayRect, specOverlayRect, Rect.mk.injEq]

/-- C8 (amended): for every overlay and zoom factor, the live view draws
the rectangle at `(x%, y%)` with size `(width%, height%)` of the
viewport, unaffected by the zoom factor (it equals the claimed projection
at zoom 1); the media viewer keeps the rectangle's top-left at
`(x%, y%)` and multiplies only its size by the zoom factor (scaling about
the rectangle's own origin, not the viewport's); at zoom factor 1 both
renderers agree with the claimed projection; and both label the rectangle
with the detection type and the confidence rounded to the nearest integer
percent. -/
theorem overlay_render_contract (vw vh z : ℚ) (r : RiskDetection) :
    liveOverlayRect vw vh z r = specOverlayRect vw vh 1 r
    ∧ viewerOverlayRect vw vh 1 r = specOverlayRect vw vh 1 r
    ∧ (viewerOverlayRect vw vh z r).left = (specOverlayRect vw vh 1 r).left
    ∧ (viewerOverlayRect vw vh z r).top = (specOverlayRect vw vh 1 r).top
    ∧ (viewerOverlayRect vw vh z r).width = (specOverlayRect vw vh 1 r).width * z
    ∧ (viewerOverlayRect vw vh z r).height = (specOverlayRect vw vh 1 r).height * z
    ∧ overlayLabel r = r.rtype ++ " (" ++ toString (jsRound r.confidence) ++ "%)"
    ∧ |r.confidence - (jsRound r.confidence : ℚ)| ≤ 1 / 2 := by
  refine ⟨?_, ?_, ?_, ?_, ?_, ?_, rfl, jsRound_dist r.confidence⟩ <;>
    simp [liveOverlayRect, viewerOverlayRect, specOverlayRect]

/-- C8 witness: the amended rendering contract evaluated at the concrete
overlay of the counterexample, viewport 100×100, zoom factor 2. -/
theorem overlay_render_contract_witness :
    liveOverlayRect 100 100 2
        { id := "risk-1", rtype := "Fire Hazard", confidence := 87,
          x := 10, y := 20, width := 30, height := 15 } =
      specOverlayRect 100 100 1
        { id := "risk-1", rtype := "Fire Hazard", confidence := 87,
          x := 10, y := 20, width := 30, height := 15 } :=
  (overlay_render_contract 100 100 2
    { id := "risk-1", rtype := "Fire Hazard", confidence := 87,
      x := 10, y := 20, width := 30, height := 15 }).1

/-- C1: evaluation at the failing input. During a fresh-mount negotiation
whose POST receives a 2xx answer, the code constructs a second peer
connection (the receiver of the nonexistent `createSessionDescription`
call) while the negotiated one is still open — two peer connections are
open at that instant — and the stray connection is never closed. This
contradicts the claimed at-most-one-open-connection invariant. -/
theorem two_connections_open_during_ok_negotiation :
    maxOpen okNegotiation = 2 ∧ Prim.closePC 1 ∉ okNegotiation := by
  constructor
  · rfl
  · decide

/-- C2: evaluation at the failing input. On a 2xx response the
negotiation does add a receive-only transceiver, set the offer locally
and POST exactly the offer's SDP with `Content-Type: application/sdp` —
but it then constructs a throwaway peer connection, throws a TypeError on
the nonexistent `createSessionDescription` method, never applies the
answer as a remote description, and lands in the error state. -/
theorem ok_response_throws_before_remote_description :
    okNegotiation =
      [.setStatus .connecting, .setErrorMsg none,
       .newPC 0 ["stun:stun.l.google.com:19302"],
       .assignPcRef 0,
       .addTransceiverRecvOnly 0,
       .setLocalDesc 0 offerSD,
       .httpPost whepUrl "application/sdp" offerSD.sdp,
       .newPC 1 [],
       .throwTypeError "createSessionDescription is not a function",
       .setStatus .error,
       .setErrorMsg (some "Cannot connect to Camera. Check Raspberry Pi.")]
    ∧ okNegotiation.countP isSetRemotePrim = 0
    ∧ (runPrims initLS okNegotiation).status = .error := by
  refine ⟨rfl, rfl, rfl⟩

/-- C5: on a non-success HTTP response the session reaches the error
state with the human-readable message shown to the user, the whole
negotiation performs exactly one HTTP POST (no automatic retry), and the
rendered error UI surfaces exactly one manual-retry affordance. -/
theorem failed_negotiation_single_retry (st : LS) (pcId tmpId : ℕ)
    (url : String) (offer : SD) (statusText : String) (hurl : url ≠ "") :
    (runPrims st (startStream st.pcRef pcId tmpId url offer (.notOk statusText) true)).status
      = .error
    ∧ (runPrims st (startStream st.pcRef pcId tmpId url offer (.notOk statusText) true)).errorMessage
      = some "Cannot connect to Camera. Check Raspberry Pi."
    ∧ (startStream st.pcRef pcId tmpId url offer (.notOk statusText) true).countP isPostPrim = 1
    ∧ retryButtonCount
        (runPrims st (startStream st.pcRef pcId tmpId url offer (.notOk statusText) true)) = 1 := by
  obtain ⟨pc, sr, vs, stat, em, opens⟩ := st
  cases pc <;>
    simp [startStream, hurl, catchPrims, runPrims, applyPrim, retryButtonCount, isPostPrim]

/-- C5 witness: a concrete failed negotiation (404 from the gateway) on a
fresh mount. -/
theorem failed_negotiation_single_retry_witness :
    (runPrims initLS (startStream initLS.pcRef 0 1 whepUrl offerSD (.notOk "Not Found") true)).status
      = ConnStatus.error :=
  (failed_negotiation_single_retry initLS 0 1 whepUrl offerSD "Not Found" (by decide)).1

/-- No primitive action of the negotiation effect or its cleanup writes
`streamRef`; only the `ontrack` handler does. -/
lemma streamRef_runPrims (ps : List Prim) (st : LS) :
    (runPrims st ps).streamRef = st.streamRef := by
  induction ps generalizing st with
  | nil => rfl
  | cons p ps ih =>
    have hstep : runPrims st (p :: ps) = runPrims (applyPrim st p) ps := rfl
    rw [hstep, ih]
    cases p <;> rfl

/-- C9 counterexample: mount (the POST gets a 2xx answer), a track
arrives carrying stream 7, then the component is torn down. The cleanup
closes the peer connection and detaches the video element's source but
does not clear `streamRef`, so `getStream()` still returns stream 7 of
the torn-down session instead of null. -/
theorem getStream_returns_torn_down_stream :
    getStream (runEvents initLS
        [.negotiate 0 1 whepUrl offerSD (.ok "v=0 answer"),
         .trackArrived 7, .teardown]) = some 7
    ∧ (runEvents initLS
        [.negotiate 0 1 whepUrl offerSD (.ok "v=0 answer"),
         .trackArrived 7, .teardown]).videoSrc = none
    ∧ (runEvents initLS
        [.negotiate 0 1 whepUrl offerSD (.ok "v=0 answer"),
         .trackArrived 7, .teardown]).pcRef = some 0
    ∧ 0 ∉ (runEvents initLS
        [.negotiate 0 1 whepUrl offerSD (.ok "v=0 answer"),
         .trackArrived 7, .teardown]).openPCs := by
  refine ⟨rfl, rfl, rfl, by decide⟩

/-- C9 (amended): `getStream()` returns the stream most recently attached
by the `ontrack` handler; in particular it returns null whenever no track
has ever been attached — along any event sequence without a track
arrival it stays null. Teardown does not clear the stored stream, so
after unmount or a URL change `getStream()` can still return the
torn-down session's stream, until a later track arrival overwrites it. -/
theorem getStream_none_without_track (st : LS) (es : List Ev)
    (h0 : st.streamRef = none) (h : ∀ e ∈ es, isTrackEv e = false) :
    getStream (runEvents st es) = none := by
  induction es generalizing st with
  | nil => exact h0
  | cons e es ih =>
    have hstep : runEvents st (e :: es) = runEvents (stepEv st e) es := rfl
    rw [hstep]
    refine ih (stepEv st e) ?_ fun x hx => h x (List.mem_cons_of_mem e hx)
    cases e with
    | negotiate pcId tmpId url offer resp =>
      exact (streamRef_runPrims _ st).trans h0
    | trackArrived sid =>
      exact absurd (h _ (List.mem_cons_self _ _)) (by simp [isTrackEv])
    | teardown =>
      exact (streamRef_runPrims _ st).trans h0

/-- C9 witness: the amended null-before-connection guarantee on a
concrete trace — a failed negotiation followed by teardown, with no track
ever arriving. -/
theorem getStream_none_without_track_witness :
    getStream (runEvents initLS
        [.negotiate 0 1 whepUrl offerSD (.notOk "Not Found"), .teardown]) = none :=
  getStream_none_without_track initLS
    [.negotiate 0 1 whepUrl offerSD (.notOk "Not Found"), .teardown]
    rfl (by decide)

/-- Mid-recording environment events (chunk deliveries, detection-state
updates) do not touch the recording flags, the recorder object or the
start timestamp. -/
lemma runApp_mid_preserves (es : List AppEv) (st : AppState)
    (h : ∀ e ∈ es, isMidEv e = true) :
    (runApp st es).isRecording = st.isRecording
    ∧ (runApp st es).recorder = st.recorder
    ∧ (runApp st es).recorderActive = st.recorderActive
    ∧ (runApp st es).recordingStartTime = st.recordingStartTime := by
  induction es generalizing st with
  | nil => exact ⟨rfl, rfl, rfl, rfl⟩
  | cons e es ih =>
    have hstep : runApp st (e :: es) = runApp (stepApp st e) es := rfl
    have hrest := ih (stepApp st e) fun x hx => h x (List.mem_cons_of_mem e hx)
    have hone : (stepApp st e).isRecording = st.isRecording
        ∧ (stepApp st e).recorder = st.recorder
        ∧ (stepApp st e).recorderActive = st.recorderActive
        ∧ (stepApp st e).recordingStartTime = st.recordingStartTime := by
      cases e with
      | toggle now stream ctorOk thumb =>
        exact absurd (h _ (List.mem_cons_self _ _)) (by simp [isMidEv])
      | dataAvail c =>
        by_cases hact : st.recorderActive <;>
          by_cases hc : c.size > 0 <;>
          simp [stepApp, ondataavailable, hact, hc]
      | risksUpdate rs => exact ⟨rfl, rfl, rfl, rfl⟩
    rw [hstep]
    exact ⟨hrest.1.trans hone.1, hrest.2.1.trans hone.2.1,
      hrest.2.2.1.trans hone.2.2.1, hrest.2.2.2.trans hone.2.2.2⟩

/-- The start branch of `handleToggleRecording`: from an idle state with
a stream available and a successful recorder construction, it resets the
chunk list, stamps the start time, and installs an active recorder whose
stop closure captured the current `detectedRisks`. -/
lemma start_step (st : AppState) (now s : ℕ) (thumb : Option String)
    (h : st.isRecording = false) :
    handleToggleRecording st now (some s) true thumb =
      { st with isRecording := true, recordedChunks := [], recordingStartTime := now,
                recorder := some { mimeType := "video/webm;codecs=vp9",
                                   timesliceMs := 1000,
                                   capturedRisks := st.detectedRisks },
                recorderActive := true } := by
  obtain ⟨rec, chunks, t0, r0, act, vids, risks⟩ := st
  cases rec with
  | true => cases h
  | false => rfl

/-- The stop branch of `handleToggleRecording`: with an active recorder,
the stop click finalizes an artifact from the accumulated chunks (in
order), the wall-clock elapsed time, the closure-captured overlay set and
the stop-time thumbnail, and prepends it to the retained list. -/
lemma stop_step (st : AppState) (now : ℕ) (stream : Option ℕ) (ctorOk : Bool)
    (thumb : Option String) (r : Recorder)
    (hrec : st.isRecording = true) (hr : st.recorder = some r)
    (hact : st.recorderActive = true) :
    (handleToggleRecording st now stream ctorOk thumb).recordedVideos.head? =
      some { duration := (now - st.recordingStartTime) / 1000,
             blobData := (st.recordedChunks.map Chunk.data).flatten,
             blobType := "video/webm",
             risks := r.capturedRisks,
             thumbnailUrl := thumb.getD "" } := by
  obtain ⟨rec, chunks, t0, r0, act, vids, risks⟩ := st
  cases hrec
  cases hact
  cases hr
  rfl

/-- C3 counterexample: recording starts while overlay set `[riskA]` is
active; mid-recording the detections update to `[riskA, riskB]`; the stop
click then produces an artifact whose attached overlay set is the
start-time `[riskA]`, not the `[riskA, riskB]` active at the stop
instant — the `onstop` closure captured the `detectedRisks` state of the
render in which recording started. -/
theorem artifact_risks_are_start_time :
    (runApp (appIdle [riskA])
        [.toggle 0 (some 0) true none,
         .risksUpdate [riskA, riskB],
         .dataAvail { size := 3, data := [10, 11, 12] },
         .toggle 5000 (some 0) true (some "data:thumb")]).recordedVideos.map
      RecordedVideoArtifact.risks = [[riskA]]
    ∧ (runApp (appIdle [riskA])
        [.toggle 0 (some 0) true none,
         .risksUpdate [riskA, riskB],
         .dataAvail { size := 3, data := [10, 11, 12] },
         .toggle 5000 (some 0) true (some "data:thumb")]).detectedRisks = [riskA, riskB]
    ∧ ([riskA] : List RiskDetection) ≠ [riskA, riskB] := by
  refine ⟨rfl, rfl, by simp⟩

/-- C3 (amended): for every recording started while idle and stopped
after arbitrary mid-recording chunk deliveries and detection updates, the
artifact's attached overlay set equals the overlay set active at the
START instant (the value the recorder's stop closure captured when
recording began), and its reported duration is the wall-clock elapsed
milliseconds divided by 1000 rounded down — within one second of the
exact elapsed time. -/
theorem recording_artifact_contract (st : AppState) (s t0 t1 : ℕ)
    (thumb0 thumb1 : Option String) (mids : List AppEv)
    (stream1 : Option ℕ) (ctor1 : Bool)
    (hIdle : st.isRecording = false)
    (hmids : ∀ e ∈ mids, isMidEv e = true) :
    (handleToggleRecording
        (runApp (handleToggleRecording st t0 (some s) true thumb0) mids)
        t1 stream1 ctor1 thumb1).recordedVideos.head? =
      some { duration := (t1 - t0) / 1000,
             blobData := ((runApp (handleToggleRecording st t0 (some s) true thumb0)
               mids).recordedChunks.map Chunk.data).flatten,
             blobType := "video/webm",
             risks := st.detectedRisks,
             thumbnailUrl := thumb1.getD "" }
    ∧ (t1 - t0) / 1000 * 1000 ≤ t1 - t0
    ∧ t1 - t0 < (t1 - t0) / 1000 * 1000 + 1000 := by
  have hstart := start_step st t0 s thumb0 hIdle
  have hmid := runApp_mid_preserves mids (handleToggleRecording st t0 (some s) true thumb0) hmids
  have h1 : (runApp (handleToggleRecording st t0 (some s) true thumb0) mids).isRecording
      = true := by rw [hmid.1, hstart]
  have h2 : (runApp (handleToggleRecording st t0 (some s) true thumb0) mids).recorder
      = some { mimeType := "video/webm;codecs=vp9", timesliceMs := 1000,
               capturedRisks := st.detectedRisks } := by rw [hmid.2.1, hstart]
  have h3 : (runApp (handleToggleRecording st t0 (some s) true thumb0) mids).recorderActive
      = true := by rw [hmid.2.2.1, hstart]
  have h4 : (runApp (handleToggleRecording st t0 (some s) true thumb0) mids).recordingStartTime
      = t0 := by rw [hmid.2.2.2, hstart]
  have hstop := stop_step (runApp (handleToggleRecording st t0 (some s) true thumb0) mids)
    t1 stream1 ctor1 thumb1
    { mimeType := "video/webm;codecs=vp9", timesliceMs := 1000,
      capturedRisks := st.detectedRisks } h1 h2 h3
  rw [h4] at hstop
  refine ⟨hstop, Nat.div_mul_le_self _ _, ?_⟩
  have hdm := Nat.div_add_mod (t1 - t0) 1000
  have hm : (t1 - t0) % 1000 < 1000 := Nat.mod_lt _ (by omega)
  omega

/-- C3 witness: the amended contract on a concrete run — start at 0 ms
with `[riskA]` active, detections change to `[riskB]` and one chunk
arrives mid-recording, stop at 3500 ms. -/
theorem recording_artifact_contract_witness :
    (handleToggleRecording
        (runApp (handleToggleRecording (appIdle [riskA]) 0 (some 0) true none)
          [.risksUpdate [riskB], .dataAvail { size := 2, data := [1, 2] }])
        3500 (some 0) true (some "thumb")).recordedVideos.head? =
      some { duration := (3500 - 0) / 1000,
             blobData := ((runApp (handleToggleRecording (appIdle [riskA]) 0 (some 0) true none)
               [.risksUpdate [riskB], .dataAvail { size := 2, data := [1, 2] }]).recordedChunks.map
                 Chunk.data).flatten,
             blobType := "video/webm",
             risks := (appIdle [riskA]).detectedRisks,
             thumbnailUrl := (some "thumb").getD "" } :=
  (recording_artifact_contract (appIdle [riskA]) 0 0 3500 none (some "thumb")
    [.risksUpdate [riskB], .dataAvail { size := 2, data := [1, 2] }]
    (some 0) true rfl (by decide)).1

/-- The three-second recording scenario: start at 0 ms, one chunk
delivered per second for three seconds, stop at 3000 ms. -/
def threeSecondTrace : List AppEv :=
  [.toggle 0 (some 0) true none,
   .dataAvail { size := 2, data := [1, 2] },
   .dataAvail { size := 2, data := [3, 4] },
   .dataAvail { size := 2, data := [5, 6] },
   .toggle 3000 (some 0) true none]

/-- C7: the recorder is started with a fixed 1000 ms timeslice (periodic
chunk emission, not only at stop); every non-empty delivered chunk is
appended to the accumulated list in order while empty ones are dropped;
on stop the artifact's blob is the in-order concatenation of all
accumulated chunks; and in the concrete three-second scenario (one chunk
per second) the stop instant sees 3 accumulated chunks, and the artifact
is their concatenation with duration 3 s. -/
theorem recording_chunk_pipeline :
    (∀ (st : AppState) (now s : ℕ) (thumb : Option String),
      st.isRecording = false →
        (handleToggleRecording st now (some s) true thumb).recorder =
          some { mimeType := "video/webm;codecs=vp9", timesliceMs := 1000,
                 capturedRisks := st.detectedRisks })
    ∧ (∀ (st : AppState) (c : Chunk),
      st.recorderActive = true → 0 < c.size →
        (ondataavailable st c).recordedChunks = st.recordedChunks ++ [c])
    ∧ (∀ (st : AppState) (c : Chunk), c.size = 0 → ondataavailable st c = st)
    ∧ (∀ (st : AppState) (now : ℕ) (stream : Option ℕ) (ctorOk : Bool)
        (thumb : Option String) (r : Recorder),
      st.isRecording = true → st.recorder = some r → st.recorderActive = true →
        (handleToggleRecording st now stream ctorOk thumb).recordedVideos.head? =
          some { duration := (now - st.recordingStartTime) / 1000,
                 blobData := (st.recordedChunks.map Chunk.data).flatten,
                 blobType := "video/webm", risks := r.capturedRisks,
                 thumbnailUrl := thumb.getD "" })
    ∧ (runApp (appIdle []) (threeSecondTrace.take 4)).recordedChunks.length = 3
    ∧ (runApp (appIdle []) threeSecondTrace).recordedVideos.map
        (fun a => (a.duration, a.blobData)) = [(3, [1, 2, 3, 4, 5, 6])] := by
  refine ⟨?_, ?_, ?_, ?_, by decide, by decide⟩
  · intro st now s thumb h
    rw [start_step st now s thumb h]
  · intro st c hact hc
    simp [ondataavailable, hact, hc]
  · intro st c hc
    simp [ondataavailable, hc]
  · intro st now stream ctorOk thumb r hrec hr hact
    exact stop_step st now stream ctorOk thumb r hrec hr hact

/-- C7 witness: the chunk-append conjunct applied to a concrete active
recorder state and a concrete non-empty chunk. -/
theorem recording_chunk_pipeline_witness :
    (ondataavailable
        { isRecording := true, recordedChunks := [{ size := 2, data := [1, 2] }],
          recordingStartTime := 0,
          recorder := some { mimeType := "video/webm;codecs=vp9", timesliceMs := 1000,
                             capturedRisks := [] },
          recorderActive := true, recordedVideos := [], detectedRisks := [] }
        { size := 2, data := [3, 4] }).recordedChunks =
      [{ size := 2, data := [1, 2] }] ++ [{ size := 2, data := [3, 4] }] :=
  recording_chunk_pipeline.2.1
    { isRecording := true, recordedChunks := [{ size := 2, data := [1, 2] }],
      recordingStartTime := 0,
      recorder := some { mimeType := "video/webm;codecs=vp9", timesliceMs := 1000,
                         capturedRisks := [] },
      recorderActive := true, recordedVideos := [], detectedRisks := [] }
    { size := 2, data := [3, 4] } rfl (by decide)

/-- C6: a toggle click while idle with no stream available
(`getStream()` returned null) leaves the `App` state exactly unchanged —
recording state stays at idle when control returns and no artifact is
produced. -/
theorem start_without_stream_noop (st : AppState) (now : ℕ) (ctorOk : Bool)
    (thumb : Option String) (h : st.isRecording = false) :
    handleToggleRecording st now none ctorOk thumb = st
    ∧ (handleToggleRecording st now none ctorOk thumb).isRecording = false
    ∧ (handleToggleRecording st now none ctorOk thumb).recordedVideos
      = st.recordedVideos := by
  obtain ⟨rec, chunks, t0, r, act, vids, risks⟩ := st
  have heq : handleToggleRecording
      ⟨rec, chunks, t0, r, act, vids, risks⟩ now none ctorOk thumb =
      ⟨rec, chunks, t0, r, act, vids, risks⟩ := by
    cases rec with
    | true => cases h
    | false => rfl
  exact ⟨heq, by rw [heq]; exact h, by rw [heq]⟩

/-- C6 witness: a concrete start attempt with no stream from the idle
state. -/
theorem start_without_stream_noop_witness :
    handleToggleRecording (appIdle []) 100 none true none = appIdle [] :=
  (start_without_stream_noop (appIdle []) 100 true none rfl).1

/-- C10 witness: totality applied at a concrete state with a decoded
frame and no obtainable 2D context. -/
theorem captureFrame_total_witness :
    (LiveStream.captureFrame
      { video := some { videoWidth := 320, videoHeight := 240, framePixels := [] },
        canvas := some (), ctx2dAvailable := false, zoomLevel := 1 }).1 = none :=
  ((captureFrame_total
      { video := some { videoWidth := 320, videoHeight := 240, framePixels := [] },
        canvas := some (), ctx2dAvailable := false, zoomLevel := 1 }).2
    { videoWidth := 320, videoHeight := 240, framePixels := [] }
    rfl (by decide) rfl).1

end SafeSight
